import Mathlib

/-!
Shallow embedding of the Strangler Fig proxy service (proxy `main.go` of the
cinema-microservices-migration repository): configuration loading, route
classification, the gradual-migration routing policy, the request pipeline
dispatch, the CORS middleware and the reverse-proxy error handler.
-/

namespace StranglerProxy

/-- Embeds Go `strings.HasPrefix s pre`: exact, case-sensitive test that
`pre` is a prefix of `s`. -/
def strStartsWith (s pre : String) : Bool :=
  pre.data.isPrefixOf s.data

/-- Embeds the Go `Config` struct of the proxy service. `MoviesMigrationPercent`
is a Go `int`, embedded as `Int` (it can be negative or above 100 after
`loadConfig`). -/
structure Config where
  port : String
  monolithURL : String
  moviesServiceURL : String
  eventsServiceURL : String
  gradualMigration : Bool
  moviesMigrationPercent : Int
  deriving DecidableEq, Repr

/-- Identifies one of the three backend targets the proxy holds a reverse
proxy for (`monolithProxy`, `moviesProxy`, `eventsProxy`). -/
inductive BackendId
  | monolith
  | movies
  | events
  deriving DecidableEq, Repr

/-- Outcome of the routing decision of `ServeHTTP`: a direct health-check
reply, or one of the three backends. -/
inductive Target
  | healthCheck
  | monolith
  | moviesMicroservice
  | eventsMicroservice
  deriving DecidableEq, Repr

/-- The route category derived from the request path by `ServeHTTP`'s
prefix checks: `/api/events*`, `/api/movies*`, or everything else. -/
inductive RouteCategory
  | events
  | movies
  | fallthru
  deriving DecidableEq, Repr

/-- Embeds `shouldRouteToNewService`: if gradual migration is disabled the
method returns `true` (route to the new service); otherwise it draws
`randomValue := rand.Intn(100)` and returns `randomValue < MoviesMigrationPercent`.
The draw is the `Fin 100` argument. -/
def shouldRouteToNewService (cfg : Config) (r : Fin 100) : Bool :=
  if !cfg.gradualMigration then
    true
  else
    decide ((r.val : Int) < cfg.moviesMigrationPercent)

/-- The path classification performed by `ServeHTTP`'s prefix checks, in
their source order: `/api/events` first, then `/api/movies`, else default. -/
def classifyPath (path : String) : RouteCategory :=
  if strStartsWith path "/api/events" then
    RouteCategory.events
  else if strStartsWith path "/api/movies" then
    RouteCategory.movies
  else
    RouteCategory.fallthru

/-- The routing decision of `ServeHTTP`: health check first, then the
events prefix, then the movies prefix with the gradual-migration policy,
else the monolith. -/
def route (cfg : Config) (path : String) (r : Fin 100) : Target :=
  if path = "/health" then
    Target.healthCheck
  else
    match classifyPath path with
    | RouteCategory.events => Target.eventsMicroservice
    | RouteCategory.movies =>
        if shouldRouteToNewService cfg r then Target.moviesMicroservice
        else Target.monolith
    | RouteCategory.fallthru => Target.monolith

/-- An inbound HTTP request, as far as the proxy's decisions inspect it:
method and URL path. -/
structure Request where
  method : String
  path : String
  deriving DecidableEq, Repr

/-- An HTTP response: status code, headers (in the order they are set) and
body bytes. -/
structure Response where
  status : Nat
  headers : List (String × String)
  body : String
  deriving DecidableEq, Repr

/-- Embeds `handleHealth`: `Content-Type: text/plain`, status 200, body
`Strangler Fig Proxy is healthy`. -/
def healthResponse : Response :=
  { status := 200
    headers := [("Content-Type", "text/plain")]
    body := "Strangler Fig Proxy is healthy" }

/-- Embeds `ServeHTTP` at the response level: dispatch on the routing
decision; the health check answers directly, every other branch invokes the
reverse proxy of the chosen backend. -/
def serveHTTP (cfg : Config) (r : Fin 100) (backend : BackendId → Request → Response)
    (req : Request) : Response :=
  match route cfg req.path r with
  | Target.healthCheck => healthResponse
  | Target.eventsMicroservice => backend BackendId.events req
  | Target.moviesMicroservice => backend BackendId.movies req
  | Target.monolith => backend BackendId.monolith req

/-- The three CORS headers set by `CORSMiddleware`, with the exact values
from the source. -/
def corsHeaders : List (String × String) :=
  [("Access-Control-Allow-Origin", "*"),
   ("Access-Control-Allow-Methods", "GET, POST, PUT, DELETE, OPTIONS"),
   ("Access-Control-Allow-Headers", "Content-Type, Authorization")]

/-- Embeds `CORSMiddleware`: always set the three CORS headers; an `OPTIONS`
request is answered 200 with an empty body without calling `next`; any other
request is passed to `next`. -/
def corsMiddleware (next : Request → Response) (req : Request) : Response :=
  if req.method = "OPTIONS" then
    { status := 200, headers := corsHeaders, body := "" }
  else
    let resp := next req
    { resp with headers := corsHeaders ++ resp.headers }

/-- The body written by the custom `ErrorHandler` installed in
`createReverseProxy`: `json.NewEncoder(w).Encode` of the one-entry map, which
emits the JSON object followed by a newline. -/
def proxyErrorBody : String :=
  "\x7b\"error\":\"Service temporarily unavailable\"\x7d\n"

/-- The response produced by the custom `ErrorHandler` installed in
`createReverseProxy`: status 502 (`http.StatusBadGateway`) and the JSON error
body. -/
def proxyErrorResponse : Response :=
  { status := 502
    headers := []
    body := proxyErrorBody }

/-- Embeds the dispatch of `httputil.ReverseProxy.ServeHTTP` with the custom
`ErrorHandler` from `createReverseProxy`: one attempt against the chosen
backend; if the round trip yields a response it is relayed, if it fails the
error handler's 502 response is written. There is no second attempt and no
other backend is consulted. -/
def forward (b : BackendId) (attempt : BackendId → Request → Option Response)
    (req : Request) : Response :=
  match attempt b req with
  | some resp => resp
  | none => proxyErrorResponse

/-- Decimal digit-string value: `none` on an empty list or any non-digit
character, as in the digit loop of Go `strconv.ParseInt`. -/
def digitsVal (cs : List Char) : Option Nat :=
  if cs.isEmpty then
    none
  else
    cs.foldl
      (fun acc c =>
        match acc with
        | none => none
        | some n => if c.isDigit then some (n * 10 + (c.toNat - 48)) else none)
      (some 0)

/-- Embeds Go `strconv.Atoi` (i.e. `strconv.ParseInt(s, 10, 0)` on a 64-bit
platform): optional sign, at least one decimal digit, whole string consumed,
error when the value falls outside the `int64` range. -/
def goAtoi (s : String) : Option Int :=
  let signAndDigits : Bool × List Char :=
    match s.data with
    | '-' :: t => (true, t)
    | '+' :: t => (false, t)
    | t => (false, t)
  match digitsVal signAndDigits.2 with
  | none => none
  | some n =>
    let v : Int := if signAndDigits.1 then -(n : Int) else (n : Int)
    if -(2 ^ 63) ≤ v ∧ v ≤ 2 ^ 63 - 1 then some v else none

/-- Embeds `loadConfig`. The argument is `os.Getenv`: it returns the empty
string for an unset variable. Defaults match the source; the migration
percent defaults to 50 and keeps 50 whenever `strconv.Atoi` errors. No range
check is performed on the parsed percent. -/
def loadConfig (env : String → String) : Config :=
  let port := if env "PORT" = "" then "8000" else env "PORT"
  let monolithURL := if env "MONOLITH_URL" = "" then "http://localhost:8080" else env "MONOLITH_URL"
  let moviesServiceURL :=
    if env "MOVIES_SERVICE_URL" = "" then "http://localhost:8081" else env "MOVIES_SERVICE_URL"
  let eventsServiceURL :=
    if env "EVENTS_SERVICE_URL" = "" then "http://localhost:8082" else env "EVENTS_SERVICE_URL"
  let gradualMigration := env "GRADUAL_MIGRATION" == "true"
  let migrationPercent : Int :=
    if env "MOVIES_MIGRATION_PERCENT" = "" then 50
    else
      match goAtoi (env "MOVIES_MIGRATION_PERCENT") with
      | some percent => percent
      | none => 50
  { port := port
    monolithURL := monolithURL
    moviesServiceURL := moviesServiceURL
    eventsServiceURL := eventsServiceURL
    gradualMigration := gradualMigration
    moviesMigrationPercent := migrationPercent }

/-- An environment with only `MOVIES_MIGRATION_PERCENT` set, to the
out-of-range value 150. -/
def env150 : String → String :=
  fun k => if k = "MOVIES_MIGRATION_PERCENT" then "150" else ""

/-- A sample configuration with gradual migration disabled, used by
witnesses. -/
def cfgOff : Config :=
  { port := "8000"
    monolithURL := "http://localhost:8080"
    moviesServiceURL := "http://localhost:8081"
    eventsServiceURL := "http://localhost:8082"
    gradualMigration := false
    moviesMigrationPercent := 50 }

/-- A sample configuration with gradual migration enabled at 50 percent,
used by witnesses. -/
def cfgOn : Config :=
  { cfgOff with gradualMigration := true }

end StranglerProxy

namespace StranglerProxy

/-- `strStartsWith s pre` holds exactly when the character list of `pre` is a
prefix of that of `s`. -/
theorem strStartsWith_iff (s pre : String) :
    strStartsWith s pre = true ↔ pre.data <+: s.data := by
  simp [strStartsWith, List.isPrefixOf_iff_prefix]

/-- A path with the `/api/movies` prefix does not have the `/api/events`
prefix: the two prefixes have equal length and differ. -/
theorem movies_not_events (path : String)
    (h : strStartsWith path "/api/movies" = true) :
    strStartsWith path "/api/events" = false := by
  rw [strStartsWith_iff] at h
  apply Bool.eq_false_iff.mpr
  intro hev
  rw [strStartsWith_iff] at hev
  have h1 : ("/api/movies".data : List Char) <+: "/api/events".data :=
    List.prefix_of_prefix_length_le h hev (by decide)
  have h2 : ("/api/movies".data : List Char) = "/api/events".data :=
    List.IsPrefix.eq_of_length h1 (by decide)
  exact absurd h2 (by decide)

/-- A path with the `/api/movies` prefix is not the health-check path. -/
theorem movies_ne_health (path : String)
    (h : strStartsWith path "/api/movies" = true) : path ≠ "/health" := by
  intro hp
  subst hp
  exact absurd h (by decide)

/-- A path with the `/api/events` prefix is not the health-check path. -/
theorem events_ne_health (path : String)
    (h : strStartsWith path "/api/events" = true) : path ≠ "/health" := by
  intro hp
  subst hp
  exact absurd h (by decide)

/-- On a `/api/movies*` path, `ServeHTTP` reduces to the
`shouldRouteToNewService` decision between the movies microservice and the
monolith. -/
theorem route_movies (cfg : Config) (path : String) (r : Fin 100)
    (h : strStartsWith path "/api/movies" = true) :
    route cfg path r =
      if shouldRouteToNewService cfg r then Target.moviesMicroservice
      else Target.monolith := by
  unfold route
  rw [if_neg (movies_ne_health path h)]
  have hcat : classifyPath path = RouteCategory.movies := by
    simp [classifyPath, movies_not_events path h, h]
  rw [hcat]

/-- C1: for every request whose path has prefix `/api/movies`, the routing
decision follows the migration policy: with gradual migration disabled the
target is always the movies microservice; with it enabled, a draw
`r ∈ [0,100)` resolves to the movies microservice exactly when
`r < MoviesMigrationPercent` and to the monolith otherwise. -/
theorem movies_routing_follows_migration_policy (cfg : Config) (path : String) (r : Fin 100)
    (h : strStartsWith path "/api/movies" = true) :
    route cfg path r =
      (if cfg.gradualMigration = false then Target.moviesMicroservice
       else if (r.val : Int) < cfg.moviesMigrationPercent then Target.moviesMicroservice
       else Target.monolith) := by
  rw [route_movies cfg path r h]
  unfold shouldRouteToNewService
  cases hg : cfg.gradualMigration <;>
    by_cases hr : ((r.val : Int) < cfg.moviesMigrationPercent) <;>
    simp [hr]

/-- Witness for C1 at a concrete configuration, path and draw. -/
theorem movies_routing_follows_migration_policy_witness :
    route cfgOff "/api/movies" 0 = Target.moviesMicroservice :=
  (movies_routing_follows_migration_policy cfgOff "/api/movies" 0 (by decide)).trans (by decide)

/-- C2: every request whose path has prefix `/api/events` resolves to the
events microservice, for every configuration and every random draw. -/
theorem events_always_to_events_microservice (cfg : Config) (path : String) (r : Fin 100)
    (h : strStartsWith path "/api/events" = true) :
    route cfg path r = Target.eventsMicroservice := by
  unfold route
  rw [if_neg (events_ne_health path h)]
  have hcat : classifyPath path = RouteCategory.events := by
    simp [classifyPath, h]
  rw [hcat]

/-- Witness for C2 at a concrete configuration, path and draw. -/
theorem events_always_to_events_microservice_witness :
    route cfgOn "/api/events/1" 37 = Target.eventsMicroservice :=
  events_always_to_events_microservice cfgOn "/api/events/1" 37 (by decide)

/-- C3: every request whose path has neither the `/api/events` prefix nor
the `/api/movies` prefix and is not the health-check path resolves to the
monolith, for every configuration and every random draw. -/
theorem other_paths_always_to_monolith (cfg : Config) (path : String) (r : Fin 100)
    (h1 : strStartsWith path "/api/events" = false)
    (h2 : strStartsWith path "/api/movies" = false)
    (h3 : path ≠ "/health") :
    route cfg path r = Target.monolith := by
  unfold route
  rw [if_neg h3]
  have hcat : classifyPath path = RouteCategory.fallthru := by
    simp [classifyPath, h1, h2]
  rw [hcat]

/-- Witness for C3 at a concrete configuration, path and draw. -/
theorem other_paths_always_to_monolith_witness :
    route cfgOn "/api/users" 0 = Target.monolith :=
  other_paths_always_to_monolith cfgOn "/api/users" 0 (by decide) (by decide) (by decide)

/-- Counterexample to C4 as stated: with `MOVIES_MIGRATION_PERCENT=150` in
the environment, `loadConfig` stores 150, which lies outside `[0,100]` —
nothing is rejected or clamped at load time. -/
theorem loadConfig_percent_not_clamped_cex :
    (loadConfig env150).moviesMigrationPercent = 150 ∧
    ¬ (0 ≤ (loadConfig env150).moviesMigrationPercent ∧
        (loadConfig env150).moviesMigrationPercent ≤ 100) := by
  decide

/-- C4 (amended): `loadConfig` stores whatever integer `strconv.Atoi`
accepts for `MOVIES_MIGRATION_PERCENT`, with no range check, and the value
reaches the routing policy unchanged; nevertheless the routing decision
coincides with the one a `[0,100]`-clamped percent would give, because the
random draw lies in `[0,100)`. -/
theorem percent_unclamped_but_routing_as_clamped (env : String → String) (p : Int) (r : Fin 100)
    (hset : env "MOVIES_MIGRATION_PERCENT" ≠ "")
    (hp : goAtoi (env "MOVIES_MIGRATION_PERCENT") = some p) :
    (loadConfig env).moviesMigrationPercent = p ∧
    ∀ cfg : Config,
      shouldRouteToNewService cfg r =
        shouldRouteToNewService
          { cfg with moviesMigrationPercent := max 0 (min 100 cfg.moviesMigrationPercent) } r := by
  constructor
  · simp [loadConfig, hset, hp]
  · intro cfg
    unfold shouldRouteToNewService
    cases hg : cfg.gradualMigration <;> simp [hg]

/-- Witness for the amended C4 at the out-of-range environment `env150`. -/
theorem percent_unclamped_but_routing_as_clamped_witness :
    (loadConfig env150).moviesMigrationPercent = 150 ∧
    shouldRouteToNewService cfgOn 0 =
      shouldRouteToNewService
        { cfgOn with moviesMigrationPercent := max 0 (min 100 cfgOn.moviesMigrationPercent) } 0 := by
  have h := percent_unclamped_but_routing_as_clamped env150 150 0 (by decide) (by decide)
  exact ⟨h.1, h.2 cfgOn⟩

/-- C5: with gradual migration enabled, a migration percent of 0 sends
every `/api/movies*` request to the monolith for every draw, and a percent
of 100 sends every such request to the movies microservice for every draw. -/
theorem percent_extremes_are_deterministic (cfg : Config) (path : String) (r : Fin 100)
    (hg : cfg.gradualMigration = true)
    (h : strStartsWith path "/api/movies" = true) :
    (cfg.moviesMigrationPercent = 0 → route cfg path r = Target.monolith) ∧
    (cfg.moviesMigrationPercent = 100 → route cfg path r = Target.moviesMicroservice) := by
  rw [route_movies cfg path r h]
  unfold shouldRouteToNewService
  rw [hg]
  constructor
  · intro h0
    rw [h0]
    have hr0 : ¬ ((r.val : Int) < 0) := by omega
    simp [hr0]
  · intro h100
    rw [h100]
    have hr : (r.val : Int) < 100 := by exact_mod_cast r.isLt
    simp [hr]

/-- Witness for C5 at concrete configurations and a concrete draw. -/
theorem percent_extremes_are_deterministic_witness :
    route { cfgOn with moviesMigrationPercent := 0 } "/api/movies" 0 = Target.monolith ∧
    route { cfgOn with moviesMigrationPercent := 100 } "/api/movies" 0 = Target.moviesMicroservice :=
  ⟨(percent_extremes_are_deterministic { cfgOn with moviesMigrationPercent := 0 }
      "/api/movies" 0 (by decide) (by decide)).1 (by decide),
   (percent_extremes_are_deterministic { cfgOn with moviesMigrationPercent := 100 }
      "/api/movies" 0 (by decide) (by decide)).2 (by decide)⟩

/-- C6: every `OPTIONS` request, to any path, is answered 200 with the
three CORS headers and an empty body, and the response does not depend on
the wrapped handler — no backend is reached. -/
theorem options_short_circuits_with_cors (next next2 : Request → Response) (req : Request)
    (h : req.method = "OPTIONS") :
    corsMiddleware next req =
      { status := 200
        headers := [("Access-Control-Allow-Origin", "*"),
                    ("Access-Control-Allow-Methods", "GET, POST, PUT, DELETE, OPTIONS"),
                    ("Access-Control-Allow-Headers", "Content-Type, Authorization")]
        body := "" } ∧
    corsMiddleware next req = corsMiddleware next2 req := by
  constructor <;> simp [corsMiddleware, h, corsHeaders]

/-- Witness for C6 at a concrete `OPTIONS` request. -/
theorem options_short_circuits_with_cors_witness :
    corsMiddleware (fun _ => proxyErrorResponse) { method := "OPTIONS", path := "/api/movies" } =
      { status := 200
        headers := [("Access-Control-Allow-Origin", "*"),
                    ("Access-Control-Allow-Methods", "GET, POST, PUT, DELETE, OPTIONS"),
                    ("Access-Control-Allow-Headers", "Content-Type, Authorization")]
        body := "" } :=
  (options_short_circuits_with_cors (fun _ => proxyErrorResponse) (fun _ => healthResponse)
    { method := "OPTIONS", path := "/api/movies" } rfl).1

/-- C7: a `GET /health` request is classified as the health check before
any policy decision, is answered 200 `text/plain` with the fixed liveness
body, and the response does not depend on the backends — none is reached. -/
theorem health_short_circuits (cfg : Config) (r : Fin 100)
    (backend backend2 : BackendId → Request → Response) :
    route cfg "/health" r = Target.healthCheck ∧
    serveHTTP cfg r backend { method := "GET", path := "/health" } = healthResponse ∧
    healthResponse.status = 200 ∧
    healthResponse.headers = [("Content-Type", "text/plain")] ∧
    healthResponse.body = "Strangler Fig Proxy is healthy" ∧
    serveHTTP cfg r backend { method := "GET", path := "/health" } =
      serveHTTP cfg r backend2 { method := "GET", path := "/health" } :=
  ⟨rfl, rfl, rfl, rfl, rfl, rfl⟩

/-- C8: when the single attempt against the chosen backend fails, the
response is the error handler's 502 with the JSON error body, and the
outcome depends only on that one attempt — no retry, no fallback to another
backend. -/
theorem forward_failure_502_no_fallback (b : BackendId)
    (attempt attempt2 : BackendId → Request → Option Response)
    (req : Request) (hfail : attempt b req = none)
    (hagree : attempt b req = attempt2 b req) :
    forward b attempt req = proxyErrorResponse ∧
    (forward b attempt req).status = 502 ∧
    (forward b attempt req).body = "\x7b\"error\":\"Service temporarily unavailable\"\x7d\n" ∧
    forward b attempt req = forward b attempt2 req := by
  refine ⟨?_, ?_, ?_, ?_⟩ <;>
    simp [forward, hfail, ← hagree, proxyErrorResponse, proxyErrorBody]

/-- Witness for C8 at a concrete failing attempt. -/
theorem forward_failure_502_no_fallback_witness :
    forward BackendId.movies (fun _ _ => none) { method := "GET", path := "/api/movies" } =
      proxyErrorResponse :=
  (forward_failure_502_no_fallback BackendId.movies (fun _ _ => none) (fun _ _ => none)
    { method := "GET", path := "/api/movies" } rfl rfl).1

/-- C9: route classification is a deterministic function of the path alone,
by exact case-sensitive prefix comparison: equal paths classify equally, and
upper-cased variants of the two API prefixes fall through to the default
category. -/
theorem classification_deterministic_case_sensitive :
    (∀ p q : String, p = q → classifyPath p = classifyPath q) ∧
    classifyPath "/API/movies" = RouteCategory.fallthru ∧
    classifyPath "/API/events" = RouteCategory.fallthru ∧
    classifyPath "/api/movies" = RouteCategory.movies ∧
    classifyPath "/api/events" = RouteCategory.events :=
  ⟨fun p q h => h ▸ rfl, by decide, by decide, by decide, by decide⟩

/-- Witness for C9 at a concrete path. -/
theorem classification_deterministic_case_sensitive_witness :
    classifyPath "/api/movies/1" = classifyPath "/api/movies/1" :=
  classification_deterministic_case_sensitive.1 "/api/movies/1" "/api/movies/1" rfl

/-- C10: `loadConfig` enables gradual migration exactly when the
`GRADUAL_MIGRATION` environment variable is the string `true`; for any other
value, including unset (the empty string), the flag is false and every
`/api/movies*` request then resolves to the movies microservice regardless
of the migration percent and the draw. -/
theorem gradual_flag_requires_exact_true (env : String → String) (path : String) (r : Fin 100)
    (h : env "GRADUAL_MIGRATION" ≠ "true")
    (hp : strStartsWith path "/api/movies" = true) :
    ((loadConfig env).gradualMigration = true ↔ env "GRADUAL_MIGRATION" = "true") ∧
    (loadConfig env).gradualMigration = false ∧
    route (loadConfig env) path r = Target.moviesMicroservice := by
  have hload : (loadConfig env).gradualMigration = (env "GRADUAL_MIGRATION" == "true") := rfl
  have hgm : (loadConfig env).gradualMigration = false := by
    rw [hload]
    exact beq_eq_false_iff_ne.mpr h
  refine ⟨by rw [hload]; exact beq_iff_eq, hgm, ?_⟩
  rw [route_movies (loadConfig env) path r hp]
  unfold shouldRouteToNewService
  rw [hgm]
  simp

/-- Witness for C10 with the variable unset. -/
theorem gradual_flag_requires_exact_true_witness :
    route (loadConfig (fun _ => "")) "/api/movies" 0 = Target.moviesMicroservice :=
  (gradual_flag_requires_exact_true (fun _ => "") "/api/movies" 0 (by decide) (by decide)).2.2

end StranglerProxy
